import Mathlib

/-!
Verification of the sketch-build planner and entity-registry builder of the
`2022-sourmash-sketchfrom` repository.

The development shallowly embeds the two scripts:

* `sketch_from.py` — manifest-row reconstruction
  (`_manifest_row_to_compute_param_obj`), the cross-product build planner
  (the big loop of `main`), and the sketch accumulator (`_compute_sigs`);
* `fasta-to-source-list.py` — the `InputFile` descriptor with its `merge` and
  `is_empty` methods, and the registry-building loop of `main`.

External collaborators (the sourmash `ComputeParameters` class, manifest
loading/writing, screed sequence iteration) are modelled as data; where the
spec, not the repository, defines their behaviour, the definition's doc
comment says so.
-/

set_option autoImplicit false

namespace SketchFrom

/-- Model of the sourmash `ComputeParameters` object as constructed by this
script: `ComputeParameters([ksize], seed, is_protein, is_dayhoff, is_hp,
is_dna, num, track_abundance, scaled)`.  Modelled from the spec: the class
itself lives in the external sourmash library; the spec fixes its fields and
structural (all-fields) equality. -/
structure ComputeParameters where
  ksizes : List Nat
  seed : Nat
  protein : Bool
  dayhoff : Bool
  hp : Bool
  dna : Bool
  num : Nat
  track_abundance : Bool
  scaled : Nat
  deriving DecidableEq, Repr

/-- Model of one manifest row as read by `sketch_from.py` (`row['name']`,
`row['moltype']`, `row['ksize']`, `row['num']`, `row['with_abundance']`,
`row['scaled']`). -/
structure ManifestRow where
  name : String
  moltype : String
  ksize : Nat
  num : Nat
  with_abundance : Bool
  scaled : Nat
  deriving DecidableEq, Repr

/-- Errors of `sketch_from.py`.  The script expresses all of them as Python
`assert` statements; the spec names the kinds. -/
inductive SketchFromError where
  /-- `assert 0` on an unrecognized manifest-row category (spec: MoleculeTypeError). -/
  | moleculeType
  /-- `assert filename` in the planner loop (spec: MissingSourceFileError). -/
  | missingSourceFile
  /-- `assert p.dayhoff or p.protein or p.hp` in the planner loop. -/
  | badMoltypeFlags
  /-- `assert param_objs` in `_compute_sigs` (empty spec list for a work item). -/
  | emptyParamList
  /-- `if p.dna: assert is_dna` in `_compute_sigs` (mixed DNA/non-DNA group). -/
  | mixedGroup
  deriving DecidableEq, Repr

/-- The molecule-flag assignment of `_manifest_row_to_compute_param_obj`
(lines 22-32 of `sketch_from.py`), returning `(is_protein, is_dayhoff, is_hp,
is_dna)`.  Note the source's `dayhoff` branch sets `is_hp = True` (line 30);
`is_dayhoff` is initialised but never set. -/
def moltypeFlags (moltype : String) : Except SketchFromError (Bool × Bool × Bool × Bool) :=
  if moltype = "DNA" then .ok (false, false, false, true)
  else if moltype = "protein" then .ok (true, false, false, false)
  else if moltype = "hp" then .ok (false, false, true, false)
  else if moltype = "dayhoff" then .ok (false, false, true, false)
  else .error .moleculeType

/-- Embedding of `_manifest_row_to_compute_param_obj` (`sketch_from.py`
lines 20-42): molecule flags from the row's `moltype`, k-mer size taken
directly for DNA and multiplied by 3 otherwise, seed fixed at 42, the other
fields copied from the row. -/
def _manifest_row_to_compute_param_obj (row : ManifestRow) :
    Except SketchFromError ComputeParameters := do
  let (is_protein, is_dayhoff, is_hp, is_dna) ← moltypeFlags row.moltype
  let ksize := if is_dna then row.ksize else row.ksize * 3
  return ⟨[ksize], 42, is_protein, is_dayhoff, is_hp, is_dna,
          row.num, row.with_abundance, row.scaled⟩

/-- One row of the input CSV as read by the planner loop (`row['name']`,
`row['genome_filename']`, `row['protein_filename']`); an absent file is the
empty string. -/
structure CsvRow where
  name : String
  genome_filename : String
  protein_filename : String
  deriving DecidableEq, Repr

/-- The `already_done` index: names mapped to the list of reconstructed
parameter objects, in encounter order (`defaultdict(list)` with `append`). -/
abbrev DoneIndex : Type := List (String × List ComputeParameters)

/-- Lookup in the `already_done` defaultdict: the list for a name, `[]` when
the name is absent. -/
def lookupDone : DoneIndex → String → List ComputeParameters
  | [], _ => []
  | (k, v) :: rest, n => if k = n then v else lookupDone rest n

/-- Append a value to the list stored under a key of an insertion-ordered
association list, creating the key at the end if absent — the behaviour of
`defaultdict(list)` with `d[k].append(v)`. -/
def appendAt {α : Type} [DecidableEq α] {β : Type} :
    List (α × List β) → α → β → List (α × List β)
  | [], k, v => [(k, [v])]
  | (k', vs) :: rest, k, v =>
    if k' = k then (k', vs ++ [v]) :: rest else (k', vs) :: appendAt rest k v

/-- State of the planner loop: the `to_build` map keyed by
`(name, filename)`, and the `total` and `n_skipped` counters. -/
structure PlanState where
  toBuild : List ((String × String) × List ComputeParameters)
  total : Nat
  skipped : Nat
  deriving DecidableEq, Repr

/-- One iteration of the inner planner loop (`sketch_from.py` lines 176-193):
count the pair, skip it when the parameter object is already in the name's
done-list, otherwise choose genome or proteome file by molecule type
(asserting the flags and the file's presence) and append to `to_build`. -/
def planStep (plist : List ComputeParameters) (name genome proteome : String)
    (st : PlanState) (p : ComputeParameters) : Except SketchFromError PlanState :=
  let st := { st with total := st.total + 1 }
  if p ∈ plist then
    .ok { st with skipped := st.skipped + 1 }
  else if p.dna then
    if genome = "" then .error .missingSourceFile
    else .ok { st with toBuild := appendAt st.toBuild (name, genome) p }
  else if p.dayhoff || p.protein || p.hp then
    if proteome = "" then .error .missingSourceFile
    else .ok { st with toBuild := appendAt st.toBuild (name, proteome) p }
  else .error .badMoltypeFlags

/-- The inner planner loop over all requested parameter objects for one CSV
row. -/
def planParams (plist : List ComputeParameters) (name genome proteome : String) :
    PlanState → List ComputeParameters → Except SketchFromError PlanState
  | st, [] => .ok st
  | st, p :: ps => do
    planParams plist name genome proteome (← planStep plist name genome proteome st p) ps

/-- The outer planner loop over the CSV rows (`sketch_from.py` lines
170-193): for each row, look up its done-list once, then run the inner loop
over `build_params`. -/
def planRows (done : DoneIndex) (build_params : List ComputeParameters) :
    PlanState → List CsvRow → Except SketchFromError PlanState
  | st, [] => .ok st
  | st, row :: rows => do
    let st ← planParams (lookupDone done row.name) row.name
      row.genome_filename row.protein_filename st build_params
    planRows done build_params st rows

/-- The build planner: the whole cross-product loop starting from empty
state. -/
def plan (rows : List CsvRow) (build_params : List ComputeParameters)
    (done : DoneIndex) : Except SketchFromError PlanState :=
  planRows done build_params ⟨[], 0, 0⟩ rows

/-- A sequence record as produced by the external screed reader: a name and a
sequence string. -/
structure Record where
  rname : String
  sequence : String
  deriving DecidableEq, Repr

/-- A finished sketch as observable through the external sketch engine: the
parameter object it was built from, every sequence folded into it with the
`input_is_protein` flag used, and the name/filename metadata assigned by
`set_sig_name`. -/
structure Sketch where
  param : ComputeParameters
  seqs : List String
  input_is_protein : Bool
  sname : String
  filename : String
  deriving DecidableEq, Repr

/-- Processing of one work item by `_compute_sigs` (`sketch_from.py` lines
50-86): assert the spec list non-empty, skip with a warning when the sequence
stream is empty, fail when a DNA spec follows a non-DNA first spec
(`if p.dna: assert is_dna`), otherwise build one sketch per spec, fold every
record's sequence into each, and assign name metadata.  Returns the finished
sketches and the warnings emitted. -/
def computeSigsItem (name filename : String) (param_objs : List ComputeParameters)
    (records : List Record) : Except SketchFromError (List Sketch × List String) :=
  match param_objs with
  | [] => .error .emptyParamList
  | p0 :: _ =>
    if records.isEmpty then
      .ok ([], ["no sequences found in " ++ filename])
    else if param_objs.all (fun p => !p.dna || p0.dna) then
      let input_is_protein := !p0.dna
      .ok (param_objs.map (fun p =>
        ⟨p, records.map (·.sequence), input_is_protein, name, filename⟩), [])
    else .error .mixedGroup

/-- The loop of `_compute_sigs` over every work item, reading each item's
source file through `fetch` (the external sequence reader).  Sketches and
warnings accumulate in item order; a fatal error aborts the batch. -/
def computeSigs (fetch : String → List Record) :
    List ((String × String) × List ComputeParameters) →
    Except SketchFromError (List Sketch × List String)
  | [] => .ok ([], [])
  | ((name, filename), param_objs) :: rest => do
    let (sigs, warns) ← computeSigsItem name filename param_objs (fetch filename)
    let (sigs', warns') ← computeSigs fetch rest
    return (sigs ++ sigs', warns ++ warns')

/-- Modelled from the spec: the molecule-category string the external
sourmash manifest stores for a signature built from a parameter object
(§3: exactly one molecule flag is active; glossary: categories DNA,
protein, dayhoff, hp). -/
def moltypeName (p : ComputeParameters) : String :=
  if p.dna then "DNA"
  else if p.protein then "protein"
  else if p.dayhoff then "dayhoff"
  else "hp"

/-- Modelled from the spec: the manifest row the external sourmash output
records for a signature built from parameter object `p` for entity `name`
(§4.2 and glossary: the manifest stores the k-mer size in nucleotide units
for DNA and in amino-acid units — one third — for the other categories;
`num`, abundance and `scaled` are copied verbatim). -/
def sigRow (name : String) (p : ComputeParameters) : ManifestRow :=
  ⟨name, moltypeName p, (if p.dna then p.ksizes else p.ksizes.map (· / 3)).headD 0,
   p.num, p.track_abundance, p.scaled⟩

/-- All manifest rows of the signatures a planner result builds: one row per
(entity, parameter object) pair of `to_build`, in order. -/
def rowsOfBuild : List ((String × String) × List ComputeParameters) → List ManifestRow
  | [] => []
  | ((name, _filename), ps) :: rest => ps.map (sigRow name) ++ rowsOfBuild rest

/-- Embedding of the manifest-loading loop of `main` (`sketch_from.py` lines
126-142): skip rows with an empty name, reconstruct each remaining row's
parameter object, and append it to the row's name's list. -/
def loadAlreadyDone : DoneIndex → List ManifestRow → Except SketchFromError DoneIndex
  | done, [] => .ok done
  | done, row :: rest =>
    if row.name = "" then loadAlreadyDone done rest
    else do
      let p ← _manifest_row_to_compute_param_obj row
      loadAlreadyDone (appendAt done row.name p) rest

/-- Two planner runs back to back: the first with an empty done-index, the
second fed the manifest rows of the first run's output as its `already_done`
input. -/
def planTwice (rows : List CsvRow) (build_params : List ComputeParameters) :
    Except SketchFromError PlanState := do
  let first ← plan rows build_params []
  let done ← loadAlreadyDone [] (rowsOfBuild first.toBuild)
  plan rows build_params done

end SketchFrom

namespace SourceList

/-- Errors of `fasta-to-source-list.py`.  The script expresses all of them as
Python `assert` statements; the spec names the kinds. -/
inductive SourceListError where
  /-- `assert self.ident == other.ident` in `InputFile.merge`. -/
  | identMismatch
  /-- `assert self.name == other.name` in `InputFile.merge`. -/
  | nameMismatch
  /-- the two same-kind-collision asserts of `InputFile.merge`
  (spec: DuplicateSourceError). -/
  | duplicateSource
  /-- the complementary-kind asserts inside the branches of `InputFile.merge`. -/
  | mergeContract
  /-- `assert len(idents) >= 2` on a filename (spec: IdentifierError). -/
  | identifierError
  /-- `assert not fileinfo.is_empty()` before insertion (spec: InvalidEntityError). -/
  | invalidEntity
  deriving DecidableEq, Repr

/-- The `InputFile` descriptor of `fasta-to-source-list.py`: all four
attributes default to Python `None`, modelled as `none`. -/
structure InputFile where
  ident : Option String
  name : Option String
  genome_filename : Option String
  protein_filename : Option String
  deriving DecidableEq, Repr

/-- Python truthiness of an optional string attribute: `None` and the empty
string are falsy. -/
def truthy : Option String → Bool
  | none => false
  | some s => !(s = "")

/-- Embedding of `InputFile.merge` (`fasta-to-source-list.py` lines 18-31):
assert equal ident and name, assert no same-kind collision, then copy the
missing file kind from `other` into `self` and return the updated `self`. -/
def InputFile.merge (self other : InputFile) : Except SourceListError InputFile :=
  if self.ident ≠ other.ident then .error .identMismatch
  else if self.name ≠ other.name then .error .nameMismatch
  else if truthy self.genome_filename && truthy other.genome_filename then
    .error .duplicateSource
  else if truthy self.protein_filename && truthy other.protein_filename then
    .error .duplicateSource
  else if truthy self.genome_filename then
    if truthy other.protein_filename then
      .ok { self with protein_filename := other.protein_filename }
    else .error .mergeContract
  else
    if truthy self.protein_filename then
      .ok { self with genome_filename := other.genome_filename }
    else .error .mergeContract

/-- Embedding of `InputFile.is_empty` (`fasta-to-source-list.py` lines
33-40): `True` when `name` is `None`, `ident` is `None`, or both file
attributes are `None`.  Note the checks are `is None` checks, not emptiness
checks, so an empty-string attribute does not make the descriptor empty. -/
def InputFile.is_empty (f : InputFile) : Bool :=
  f.name.isNone || f.ident.isNone ||
    (f.genome_filename.isNone && f.protein_filename.isNone)

/-- Python `record_name.split(' ', 1)` on a character list: the part before
the first space, and — when a space exists — the remainder after it. -/
def splitFirstSpace : List Char → List Char × Option (List Char)
  | [] => ([], none)
  | c :: rest =>
    if c = ' ' then ([], some rest)
    else
      let r := splitFirstSpace rest
      (c :: r.1, r.2)

/-- Python `s.split(sep)` for a one-character separator, on a character
list: always at least one (possibly empty) part. -/
def splitChar (sep : Char) : List Char → List (List Char)
  | [] => [[]]
  | c :: rest =>
    let r := splitChar sep rest
    if c = sep then [] :: r
    else
      match r with
      | [] => [[c]]
      | h :: t => (c :: h) :: t

/-- Python `s.endswith(suffix)`. -/
def strEndsWith (s suffix : String) : Bool :=
  suffix.toList.isSuffixOf s.toList

/-- One input file as seen by the registry-building loop: its path and the
name of its first sequence record (the loop reads exactly one record through
the external screed reader; the model assumes the file yields at least one
record, as the script requires). -/
structure FileEntry where
  filename : String
  firstRecordName : String
  deriving DecidableEq, Repr

/-- The `fileinfo_d` dictionary: insertion-ordered, keyed by the
descriptor's `ident` attribute. -/
abbrev Registry : Type := List (Option String × InputFile)

/-- Python `d.get(k)` on the registry. -/
def getReg : Registry → Option String → Option InputFile
  | [], _ => none
  | (k, v) :: rest, k' => if k = k' then some v else getReg rest k'

/-- Python `d[k] = v` on the registry: replace in place, or append a new
key at the end. -/
def setReg : Registry → Option String → InputFile → Registry
  | [], k, v => [(k, v)]
  | (k', v') :: rest, k, v =>
    if k' = k then (k, v) :: rest else (k', v') :: setReg rest k v

/-- Identifier and name derivation (`fasta-to-source-list.py` lines 70-82):
from the first record's header when `ident_from_filename` is set — the
script's true-branch, which the spec calls derive-from-header mode — and
from the first two underscore-delimited tokens of the filename otherwise. -/
def deriveIdent (ident_from_filename : Bool) (f : FileEntry) :
    Except SourceListError InputFile :=
  if ident_from_filename then
    let parts := splitFirstSpace f.firstRecordName.toList
    .ok ⟨some (String.mk parts.1), some f.firstRecordName, none, none⟩
  else
    match splitChar '_' f.filename.toList with
    | p0 :: p1 :: _ =>
      let ident := String.mk p0 ++ "_" ++ String.mk p1
      .ok ⟨some ident, some ident, none, none⟩
    | _ => .error .identifierError

/-- Extension classification (`fasta-to-source-list.py` lines 84-87):
`.faa`/`.faa.gz` files are protein sources, `.fna`/`.fna.gz` files genome
sources, anything else is left unclassified. -/
def classify (f : FileEntry) (fi : InputFile) : InputFile :=
    if strEndsWith f.filename ".faa.gz" || strEndsWith f.filename ".faa" then
      { fi with protein_filename := some f.filename }
    else if strEndsWith f.filename ".fna.gz" || strEndsWith f.filename ".fna" then
      { fi with genome_filename := some f.filename }
    else fi

/-- Merge step of the per-file loop (`fasta-to-source-list.py` lines 89-91):
when a descriptor for the same `ident` was seen before, the new descriptor
merges the previous one into itself. -/
def mergePrevious (d : Registry) (fi : InputFile) : Except SourceListError InputFile :=
  match getReg d fi.ident with
  | some previous => fi.merge previous
  | none => .ok fi

/-- The empty-descriptor check and the store itself
(`fasta-to-source-list.py` lines 93-94): `assert not fileinfo.is_empty()`,
then `fileinfo_d[fileinfo.ident] = fileinfo`. -/
def checkStore (d : Registry) (fi : InputFile) : Except SourceListError Registry :=
  if fi.is_empty then .error .invalidEntity
  else .ok (setReg d fi.ident fi)

/-- Merge-and-store phase of the per-file loop (`fasta-to-source-list.py`
lines 89-94). -/
def storePhase (d : Registry) (fi : InputFile) : Except SourceListError Registry := do
  checkStore d (← mergePrevious d fi)

/-- Processing of one input file by the loop of `main`
(`fasta-to-source-list.py` lines 61-94): derive `ident` and `name`, classify
the file by extension, then merge/check/store. -/
def processFile (ident_from_filename : Bool) (d : Registry) (f : FileEntry) :
    Except SourceListError Registry := do
  storePhase d (classify f (← deriveIdent ident_from_filename f))

/-- The registry-building loop over all input files. -/
def buildRegistry (ident_from_filename : Bool) :
    Registry → List FileEntry → Except SourceListError Registry
  | d, [] => .ok d
  | d, f :: fs => do
    buildRegistry ident_from_filename (← processFile ident_from_filename d f) fs

end SourceList

namespace SketchFrom

/-- The parameter specs and registry used to exhibit the planner's
non-idempotence on dayhoff specs: one entity with a protein file, one
dayhoff spec (nucleotide-unit k-mer size 57 = 3 × 19). -/
def c1_params : List ComputeParameters :=
  [⟨[57], 42, false, true, false, false, 0, false, 1000⟩]

/-- A one-row registry whose entity carries only a protein file. -/
def c1_rows : List CsvRow := [⟨"G1", "", "g1.faa"⟩]

/-- C1: the claim that a second planner run fed the first run's output
manifest as `--already-done` yields zero work items fails on the code.  For
a registry of one entity and a single dayhoff spec, the first run builds one
sketch; its manifest row (category `dayhoff`, k-size 19) reconstructs with
the `hp` flag set instead of `dayhoff` (source line 30 of `sketch_from.py`),
so the dayhoff spec is not found in the done-list and the second run
schedules one work item again instead of zero. -/
theorem planner_second_run_rebuilds_dayhoff :
    Except.map (fun r => (r.toBuild.length, r.total, r.skipped)) (plan c1_rows c1_params [])
      = .ok (1, 1, 0) ∧
    Except.map (fun r => (r.toBuild.length, r.total, r.skipped)) (planTwice c1_rows c1_params)
      = .ok (1, 1, 0) :=
  ⟨rfl, rfl⟩

/-- C3: the claim that a manifest row whose stored category is `dayhoff`
reconstructs to a spec with the dayhoff flag active fails on the code: the
`dayhoff` branch of `_manifest_row_to_compute_param_obj` sets `is_hp`
(source line 30), so the reconstructed object has `dayhoff = false` and
`hp = true`. -/
theorem dayhoff_row_reconstructs_hp_flag :
    Except.map (fun p => (p.dayhoff, p.hp))
      (_manifest_row_to_compute_param_obj ⟨"SP_001", "dayhoff", 19, 0, false, 1000⟩)
      = .ok (false, true) :=
  rfl

/-- C4: for every manifest row accepted by
`_manifest_row_to_compute_param_obj`, the reconstructed k-mer size equals
the row's `ksize` when the category is `DNA` and `ksize * 3` otherwise. -/
theorem reconstruct_ksize_adjustment (row : ManifestRow) (p : ComputeParameters)
    (h : _manifest_row_to_compute_param_obj row = .ok p) :
    (row.moltype = "DNA" → p.ksizes = [row.ksize]) ∧
    (row.moltype ≠ "DNA" → p.ksizes = [row.ksize * 3]) := by
  unfold _manifest_row_to_compute_param_obj moltypeFlags at h
  split_ifs at h <;> simp only [Except.bind] at h <;>
    (try cases h) <;> simp_all

/-- Witness for C4 at a concrete protein row: a row with k-size 10
reconstructs with k-mer size 30. -/
theorem reconstruct_ksize_adjustment_witness :
    ((⟨"SP_001", "protein", 10, 0, false, 1000⟩ : ManifestRow).moltype = "DNA" →
      (⟨[30], 42, true, false, false, false, 0, false, 1000⟩ : ComputeParameters).ksizes
        = [(⟨"SP_001", "protein", 10, 0, false, 1000⟩ : ManifestRow).ksize]) ∧
    ((⟨"SP_001", "protein", 10, 0, false, 1000⟩ : ManifestRow).moltype ≠ "DNA" →
      (⟨[30], 42, true, false, false, false, 0, false, 1000⟩ : ComputeParameters).ksizes
        = [(⟨"SP_001", "protein", 10, 0, false, 1000⟩ : ManifestRow).ksize * 3]) :=
  reconstruct_ksize_adjustment ⟨"SP_001", "protein", 10, 0, false, 1000⟩
    ⟨[30], 42, true, false, false, false, 0, false, 1000⟩ rfl

end SketchFrom

namespace SourceList

/-- C5: merging a genome-only descriptor with a protein-only descriptor for
the same identifier and display name yields the same final descriptor — both
files set, identifier and name unchanged — in either merge order. -/
theorem merge_commutes (a b : InputFile) (g pth : String)
    (hid : a.ident = b.ident) (hnm : a.name = b.name)
    (hag : a.genome_filename = some g) (hg : g ≠ "")
    (hap : a.protein_filename = none)
    (hbg : b.genome_filename = none)
    (hbp : b.protein_filename = some pth) (hpth : pth ≠ "") :
    a.merge b = .ok ⟨a.ident, a.name, some g, some pth⟩ ∧
    b.merge a = .ok ⟨a.ident, a.name, some g, some pth⟩ := by
  cases a
  cases b
  simp_all [InputFile.merge, truthy]

/-- Witness for C5 at concrete descriptors. -/
theorem merge_commutes_witness :
    InputFile.merge ⟨some "i", some "n", some "a.fna", none⟩
        ⟨some "i", some "n", none, some "a.faa"⟩
      = .ok ⟨some "i", some "n", some "a.fna", some "a.faa"⟩ ∧
    InputFile.merge ⟨some "i", some "n", none, some "a.faa"⟩
        ⟨some "i", some "n", some "a.fna", none⟩
      = .ok ⟨some "i", some "n", some "a.fna", some "a.faa"⟩ :=
  merge_commutes ⟨some "i", some "n", some "a.fna", none⟩
    ⟨some "i", some "n", none, some "a.faa"⟩ "a.fna" "a.faa"
    rfl rfl rfl (by decide) rfl rfl rfl (by decide)

/-- C6: merging two descriptors for the same identifier that both carry a
genome file (or both a protein file) never produces a merged descriptor;
when the two display names agree — the situation the merge contract is
about — the failure is the same-kind-collision (DuplicateSourceError)
assert. -/
theorem merge_same_kind_fails (a b : InputFile)
    (hid : a.ident = b.ident)
    (hdup : (truthy a.genome_filename ∧ truthy b.genome_filename) ∨
            (truthy a.protein_filename ∧ truthy b.protein_filename)) :
    (∀ r, a.merge b ≠ .ok r) ∧
    (a.name = b.name → a.merge b = .error .duplicateSource) := by
  unfold InputFile.merge
  rcases hdup with ⟨h1, h2⟩ | ⟨h1, h2⟩ <;> by_cases hnm : a.name = b.name <;>
    simp_all

/-- Witness for C6 at concrete descriptors both carrying genome files. -/
theorem merge_same_kind_fails_witness :
    (∀ r, InputFile.merge ⟨some "i", some "n", some "x.fna", none⟩
        ⟨some "i", some "n", some "y.fna", none⟩ ≠ .ok r) ∧
    ((⟨some "i", some "n", some "x.fna", none⟩ : InputFile).name
        = (⟨some "i", some "n", some "y.fna", none⟩ : InputFile).name →
      InputFile.merge ⟨some "i", some "n", some "x.fna", none⟩
        ⟨some "i", some "n", some "y.fna", none⟩ = .error .duplicateSource) :=
  merge_same_kind_fails ⟨some "i", some "n", some "x.fna", none⟩
    ⟨some "i", some "n", some "y.fna", none⟩ rfl (Or.inl (by decide))

end SourceList

namespace SketchFrom

/-- C8 counterexample: the claim that a mixed DNA/non-DNA group is detected
in any order fails on the code.  The check `if p.dna: assert is_dna` only
fires for a DNA spec after a non-DNA first spec; a group whose first spec is
DNA and whose second is protein passes validation and produces two sketches
(the protein spec is even sketched with `input_is_protein = False`). -/
theorem mixed_group_dna_first_undetected :
    Except.map (fun r => (r.1.length, r.1.map (·.input_is_protein)))
      (computeSigsItem "n" "f"
        [⟨[21], 42, false, false, false, true, 0, false, 1000⟩,
         ⟨[30], 42, true, false, false, false, 0, false, 1000⟩]
        [⟨"r", "ACGT"⟩])
      = .ok (2, [false, false]) :=
  rfl

/-- C8 amended: the accumulator's group-category check detects a mixed group
exactly when the group's first spec is non-DNA and a DNA spec occurs in the
list; it then fails fatally (`mixedGroup`) and produces no sketch for the
group. -/
theorem mixed_group_nondna_first_fails (name filename : String)
    (p0 : ComputeParameters) (ps : List ComputeParameters)
    (records : List Record) (hrec : records ≠ [])
    (h0 : p0.dna = false) (p : ComputeParameters)
    (hmem : p ∈ p0 :: ps) (hdna : p.dna = true) :
    computeSigsItem name filename (p0 :: ps) records = .error .mixedGroup := by
  unfold computeSigsItem
  have hne : records.isEmpty = false := by
    cases records
    · exact absurd rfl hrec
    · rfl
  have hall : ((p0 :: ps).all fun q => !q.dna || p0.dna) = false := by
    simp only [List.all_eq_true, not_forall, Bool.or_eq_true, Bool.not_eq_true',
      List.all_eq_false]
    exact ⟨p, hmem, by simp [hdna, h0]⟩
  simp [hne, hall]

/-- Witness for the amended C8: a group whose first spec is protein and whose
second is DNA fails with the mixed-group fault on a one-record stream. -/
theorem mixed_group_nondna_first_fails_witness :
    computeSigsItem "n" "f"
      [⟨[30], 42, true, false, false, false, 0, false, 1000⟩,
       ⟨[21], 42, false, false, false, true, 0, false, 1000⟩]
      [⟨"r", "ACGT"⟩] = .error .mixedGroup :=
  mixed_group_nondna_first_fails "n" "f"
    ⟨[30], 42, true, false, false, false, 0, false, 1000⟩
    [⟨[21], 42, false, false, false, true, 0, false, 1000⟩]
    [⟨"r", "ACGT"⟩] (by decide) rfl
    ⟨[21], 42, false, false, false, true, 0, false, 1000⟩
    (by simp) rfl

/-- C9: a work item whose sequence stream is empty is skipped with a warning
and contributes no sketches, and the batch continues with the remaining work
items exactly as if the empty item were not there (apart from the warning). -/
theorem empty_stream_skips_with_warning (name filename : String)
    (param_objs : List ComputeParameters) (hne : param_objs ≠ [])
    (rest : List ((String × String) × List ComputeParameters))
    (fetch : String → List Record) (hempty : fetch filename = []) :
    computeSigs fetch (((name, filename), param_objs) :: rest) =
      Except.map (fun r => (r.1, ("no sequences found in " ++ filename) :: r.2))
        (computeSigs fetch rest) := by
  obtain ⟨p0, ps, rfl⟩ : ∃ p0 ps, param_objs = p0 :: ps := by
    cases param_objs
    · exact absurd rfl hne
    · exact ⟨_, _, rfl⟩
  cases hrest : computeSigs fetch rest <;>
    simp [computeSigs, computeSigsItem, hempty, hrest, Except.map, Bind.bind,
      Except.bind, Pure.pure, Except.pure]

/-- Witness for C9: a batch of one empty-stream item followed by one
well-formed item produces only the second item's sketch plus the warning. -/
theorem empty_stream_skips_with_warning_witness :
    computeSigs
        (fun f => if f = "g.fna" then [⟨"r", "ACGT"⟩] else [])
        ((("n", "empty.fna"),
            [⟨[21], 42, false, false, false, true, 0, false, 1000⟩]) ::
          [(("m", "g.fna"), [⟨[21], 42, false, false, false, true, 0, false, 1000⟩])]) =
      Except.map (fun r => (r.1, ("no sequences found in " ++ "empty.fna") :: r.2))
        (computeSigs
          (fun f => if f = "g.fna" then [⟨"r", "ACGT"⟩] else [])
          [(("m", "g.fna"), [⟨[21], 42, false, false, false, true, 0, false, 1000⟩])]) :=
  empty_stream_skips_with_warning "n" "empty.fna"
    [⟨[21], 42, false, false, false, true, 0, false, 1000⟩] (by simp)
    [(("m", "g.fna"), [⟨[21], 42, false, false, false, true, 0, false, 1000⟩])]
    (fun f => if f = "g.fna" then [⟨"r", "ACGT"⟩] else []) (by simp)

end SketchFrom

namespace SourceList

/-- A successful merge keeps `self`'s `ident` and `name` attributes. -/
theorem merge_ok_ident_name (a b r : InputFile) (h : a.merge b = .ok r) :
    r.ident = a.ident ∧ r.name = a.name := by
  unfold InputFile.merge at h
  split_ifs at h <;> cases h <;> exact ⟨rfl, rfl⟩

/-- The property the stored-descriptor invariant asserts of every registry
entry: `ident` and `name` set, and at least one file attribute set. -/
def storedOk (fi : InputFile) : Prop :=
  fi.ident ≠ none ∧ fi.name ≠ none ∧
    (fi.genome_filename ≠ none ∨ fi.protein_filename ≠ none)

/-- A descriptor that passes the `is_empty` check satisfies `storedOk`. -/
theorem storedOk_of_not_is_empty (fi : InputFile) (h : fi.is_empty = false) :
    storedOk fi := by
  obtain ⟨i, n, g, p⟩ := fi
  cases i <;> cases n <;> cases g <;> cases p <;>
    simp_all [InputFile.is_empty, storedOk]

/-- Classification never touches `ident` or `name`. -/
theorem classify_ident_name (f : FileEntry) (fi : InputFile) :
    (classify f fi).ident = fi.ident ∧ (classify f fi).name = fi.name := by
  unfold classify
  split_ifs <;> exact ⟨rfl, rfl⟩

/-- Membership after a registry store: the new pair, or an old one. -/
theorem mem_setReg (d : Registry) (k : Option String) (v : InputFile)
    (kv : Option String × InputFile) (h : kv ∈ setReg d k v) :
    kv = (k, v) ∨ kv ∈ d := by
  induction d with
  | nil => simpa [setReg] using h
  | cons hd tl ih =>
    obtain ⟨k', v'⟩ := hd
    by_cases hk : k' = k
    · simp only [setReg, if_pos hk] at h
      rcases List.mem_cons.mp h with h | h
      · exact Or.inl h
      · exact Or.inr (List.mem_cons_of_mem _ h)
    · simp only [setReg, if_neg hk] at h
      rcases List.mem_cons.mp h with h | h
      · exact Or.inr (h ▸ List.mem_cons_self _ _)
      · rcases ih h with h | h
        · exact Or.inl h
        · exact Or.inr (List.mem_cons_of_mem _ h)

/-- A store always puts the stored pair into the registry. -/
theorem self_mem_setReg (d : Registry) (k : Option String) (v : InputFile) :
    (k, v) ∈ setReg d k v := by
  induction d with
  | nil => simp [setReg]
  | cons hd tl ih =>
    obtain ⟨k', v'⟩ := hd
    by_cases hk : k' = k <;> simp [setReg, hk, ih]

/-- Unfolding of a successful `checkStore`: the descriptor passed the
`is_empty` check and was stored under its `ident`. -/
theorem checkStore_ok (d : Registry) (fi : InputFile) (reg : Registry)
    (h : checkStore d fi = .ok reg) :
    fi.is_empty = false ∧ reg = setReg d fi.ident fi := by
  unfold checkStore at h
  cases he : fi.is_empty with
  | true => rw [he] at h; simp at h
  | false =>
    rw [he] at h
    simp only [Bool.false_eq_true, if_false] at h
    cases h
    exact ⟨rfl, rfl⟩

/-- Unfolding of a successful merge-and-store phase. -/
theorem storePhase_ok (d : Registry) (fi : InputFile) (reg : Registry)
    (h : storePhase d fi = .ok reg) :
    ∃ fi2 : InputFile, mergePrevious d fi = .ok fi2 ∧ fi2.is_empty = false ∧
      reg = setReg d fi2.ident fi2 := by
  unfold storePhase at h
  cases hm : mergePrevious d fi with
  | error e => rw [hm] at h; simp [Bind.bind, Except.bind] at h
  | ok fi2 =>
    rw [hm] at h
    simp only [Bind.bind, Except.bind] at h
    obtain ⟨he, hr⟩ := checkStore_ok d fi2 reg h
    exact ⟨fi2, rfl, he, hr⟩

/-- A successful merge step keeps the incoming descriptor's `ident` and
`name`. -/
theorem mergePrevious_ident_name (d : Registry) (fi fi2 : InputFile)
    (h : mergePrevious d fi = .ok fi2) :
    fi2.ident = fi.ident ∧ fi2.name = fi.name := by
  unfold mergePrevious at h
  cases hg : getReg d fi.ident with
  | none => rw [hg] at h; cases h; exact ⟨rfl, rfl⟩
  | some prev => rw [hg] at h; exact merge_ok_ident_name fi prev fi2 h

/-- Per-file processing preserves the stored-descriptor invariant. -/
theorem processFile_preserves (flag : Bool) (d : Registry) (f : FileEntry)
    (d2 : Registry) (hd : ∀ kv ∈ d, storedOk kv.2)
    (h : processFile flag d f = .ok d2) : ∀ kv ∈ d2, storedOk kv.2 := by
  unfold processFile at h
  cases hdi : deriveIdent flag f with
  | error e => rw [hdi] at h; simp [Bind.bind, Except.bind] at h
  | ok fi0 =>
    rw [hdi] at h
    simp only [Bind.bind, Except.bind] at h
    obtain ⟨fi2, _hm, he, hr⟩ := storePhase_ok _ _ _ h
    subst hr
    intro kv hkv
    rcases mem_setReg _ _ _ _ hkv with rfl | hkv
    · exact storedOk_of_not_is_empty fi2 he
    · exact hd kv hkv

/-- The registry-building loop preserves the stored-descriptor invariant
from any starting registry that satisfies it. -/
theorem buildRegistry_preserves (flag : Bool) (files : List FileEntry) :
    ∀ d reg : Registry, (∀ kv ∈ d, storedOk kv.2) →
      buildRegistry flag d files = .ok reg → ∀ kv ∈ reg, storedOk kv.2 := by
  induction files with
  | nil =>
    intro d reg hd h
    cases h
    exact hd
  | cons f fs ih =>
    intro d reg hd h
    unfold buildRegistry at h
    cases hp : processFile flag d f with
    | error e => rw [hp] at h; simp [Bind.bind, Except.bind] at h
    | ok d2 =>
      rw [hp] at h
      simp only [Bind.bind, Except.bind] at h
      exact ih d2 reg (processFile_preserves flag d f d2 hd hp) h

end SourceList

namespace SourceList

/-- C7 counterexample: the claim that every stored descriptor has a
NON-EMPTY identifier and display name fails on the code.  In
derive-from-header mode, a `.fna` file whose first record header is the
empty string is stored with `ident` and `name` both the empty string:
`is_empty` only performs `is None` checks, so the empty-string descriptor
passes the insertion check. -/
theorem empty_ident_stored :
    Except.map (fun reg => reg.map
        (fun kv => (kv.2.ident, kv.2.name, kv.2.genome_filename, kv.2.protein_filename)))
      (buildRegistry true [] [⟨"x.fna", ""⟩])
      = .ok [(some "", some "", some "x.fna", none)] :=
  rfl

/-- C7 amended: every descriptor stored in a registry reachable by registry
building (from the empty registry) has its `ident` and `name` attributes set
— though possibly the empty string — and at least one of
`genome_filename`/`protein_filename` set; an insertion whose descriptor
fails the `is_empty` check errors out (InvalidEntityError) instead of
storing. -/
theorem registry_stored_invariant (flag : Bool) (files : List FileEntry)
    (reg : Registry) (h : buildRegistry flag [] files = .ok reg) :
    ∀ kv ∈ reg, storedOk kv.2 :=
  buildRegistry_preserves flag files [] reg (by simp) h

/-- Witness for the amended C7: the descriptor stored for a concrete
filename-mode run satisfies the invariant. -/
theorem registry_stored_invariant_witness :
    storedOk ⟨some "GCF_001", some "GCF_001", some "GCF_001_x.fna", none⟩ :=
  registry_stored_invariant false [⟨"GCF_001_x.fna", "rec"⟩]
    [(some "GCF_001",
      ⟨some "GCF_001", some "GCF_001", some "GCF_001_x.fna", none⟩)] rfl
    (some "GCF_001", ⟨some "GCF_001", some "GCF_001", some "GCF_001_x.fna", none⟩)
    (by simp)

/-- C10 counterexample: the claim that in derive-from-header mode the stored
identifier is the first WHITESPACE-delimited token of the header and the
display name is the REMAINDER after that token fails on the code.  For the
header `"AB\tCD EF"` the claim demands identifier `"AB"` (tab is whitespace)
and display name `"CD EF"`; the code splits on the space character only and
stores the WHOLE header as the name, yielding identifier `"AB\tCD"` and name
`"AB\tCD EF"`. -/
theorem header_mode_ident_name_cex :
    Except.map (fun reg => reg.map (fun kv => (kv.2.ident, kv.2.name)))
      (buildRegistry true [] [⟨"g_1.fna", "AB\tCD EF"⟩])
      = .ok [(some "AB\tCD", some "AB\tCD EF")] ∧
    (some "AB\tCD" : Option String) ≠ some "AB" ∧
    (some "AB\tCD EF" : Option String) ≠ some "CD EF" :=
  ⟨rfl, by decide, by decide⟩

/-- C10 amended: for every file processed in derive-from-header mode, the
registry after processing contains a descriptor whose `ident` is the portion
of the first record's header before the first space character (the whole
header when it has no space) and whose `name` is the entire header. -/
theorem header_mode_stored_fields (d : Registry) (f : FileEntry)
    (reg : Registry) (h : processFile true d f = .ok reg) :
    ∃ fi : InputFile, (fi.ident, fi) ∈ reg ∧
      fi.ident = some (String.mk (splitFirstSpace f.firstRecordName.toList).1) ∧
      fi.name = some f.firstRecordName := by
  unfold processFile at h
  have hdi : deriveIdent true f =
      .ok ⟨some (String.mk (splitFirstSpace f.firstRecordName.toList).1),
        some f.firstRecordName, none, none⟩ := rfl
  rw [hdi] at h
  simp only [Bind.bind, Except.bind] at h
  obtain ⟨fi2, hm, _he, hr⟩ := storePhase_ok _ _ _ h
  obtain ⟨hi, hn⟩ := mergePrevious_ident_name _ _ _ hm
  obtain ⟨hci, hcn⟩ := classify_ident_name f
    ⟨some (String.mk (splitFirstSpace f.firstRecordName.toList).1),
      some f.firstRecordName, none, none⟩
  subst hr
  exact ⟨fi2, self_mem_setReg _ _ _, by rw [hi, hci], by rw [hn, hcn]⟩

/-- Witness for the amended C10 at a concrete header with one space. -/
theorem header_mode_stored_fields_witness :
    ∃ fi : InputFile,
      (fi.ident, fi) ∈ ([(some "TOK",
        ⟨some "TOK", some "TOK REST", some "g_1.fna", none⟩)] : Registry) ∧
      fi.ident = some (String.mk
        (splitFirstSpace ("TOK REST" : String).toList).1) ∧
      fi.name = some "TOK REST" :=
  header_mode_stored_fields [] ⟨"g_1.fna", "TOK REST"⟩
    [(some "TOK", ⟨some "TOK", some "TOK REST", some "g_1.fna", none⟩)] rfl

end SourceList

namespace SketchFrom

/-- Total number of (entity, spec) pairs recorded across the work items of a
`to_build` map. -/
def sumSizes (l : List ((String × String) × List ComputeParameters)) : Nat :=
  (l.map (fun kv => kv.2.length)).sum

/-- Appending one parameter object to the `to_build` map grows the pair
count by exactly one, whether or not the key already exists. -/
theorem sumSizes_appendAt (l : List ((String × String) × List ComputeParameters))
    (k : String × String) (p : ComputeParameters) :
    sumSizes (appendAt l k p) = sumSizes l + 1 := by
  induction l with
  | nil => simp [appendAt, sumSizes]
  | cons hd tl ih =>
    obtain ⟨k', vs⟩ := hd
    by_cases hk : k' = k <;> simp [appendAt, hk, sumSizes] at ih ⊢ <;> omega

/-- With an empty done-list, one successful planner step counts one pair,
skips nothing, and records exactly one pair. -/
theorem planStep_nodone (name genome proteome : String) (st st2 : PlanState)
    (p : ComputeParameters) (h : planStep [] name genome proteome st p = .ok st2) :
    st2.total = st.total + 1 ∧ st2.skipped = st.skipped ∧
      sumSizes st2.toBuild = sumSizes st.toBuild + 1 := by
  unfold planStep at h
  split_ifs at h <;> cases h <;> simp_all [sumSizes_appendAt]

/-- With an empty done-list, a successful inner planner loop counts and
records one pair per requested parameter object and skips nothing. -/
theorem planParams_nodone (name genome proteome : String)
    (ps : List ComputeParameters) :
    ∀ st st2 : PlanState, planParams [] name genome proteome st ps = .ok st2 →
      st2.total = st.total + ps.length ∧ st2.skipped = st.skipped ∧
        sumSizes st2.toBuild = sumSizes st.toBuild + ps.length := by
  induction ps with
  | nil =>
    intro st st2 h
    cases h
    simp
  | cons p ps ih =>
    intro st st2 h
    unfold planParams at h
    cases hs : planStep [] name genome proteome st p with
    | error e => rw [hs] at h; simp [Bind.bind, Except.bind] at h
    | ok st1 =>
      rw [hs] at h
      simp only [Bind.bind, Except.bind] at h
      obtain ⟨h1, h2, h3⟩ := planStep_nodone name genome proteome st st1 p hs
      obtain ⟨h4, h5, h6⟩ := ih st1 st2 h
      simp only [List.length_cons]
      refine ⟨by omega, by omega, by omega⟩

/-- With an empty done-index, a successful outer planner loop counts and
records `rows × params` pairs and skips nothing. -/
theorem planRows_emptyDone (params : List ComputeParameters) (rows : List CsvRow) :
    ∀ st st2 : PlanState, planRows [] params st rows = .ok st2 →
      st2.total = st.total + rows.length * params.length ∧
      st2.skipped = st.skipped ∧
      sumSizes st2.toBuild = sumSizes st.toBuild + rows.length * params.length := by
  induction rows with
  | nil =>
    intro st st2 h
    cases h
    simp
  | cons row rows ih =>
    intro st st2 h
    unfold planRows at h
    simp only [lookupDone] at h
    cases hs : planParams [] row.name row.genome_filename row.protein_filename
        st params with
    | error e => rw [hs] at h; simp [Bind.bind, Except.bind] at h
    | ok st1 =>
      rw [hs] at h
      simp only [Bind.bind, Except.bind] at h
      obtain ⟨h1, h2, h3⟩ := planParams_nodone row.name row.genome_filename
        row.protein_filename params st st1 hs
      obtain ⟨h4, h5, h6⟩ := ih st1 st2 h
      simp only [List.length_cons, Nat.succ_mul]
      generalize rows.length * params.length = m at h4 h6 ⊢
      refine ⟨by omega, by omega, by omega⟩

/-- C2: with an empty done-index, the planner — when it succeeds — counts a
total of `N × M` requested pairs for `N` registry rows and `M` parameter
specs, skips none, and distributes exactly `N × M` (entity, spec) pairs
across the work items. -/
theorem plan_empty_done_counts (rows : List CsvRow)
    (params : List ComputeParameters) (res : PlanState)
    (h : plan rows params [] = .ok res) :
    res.total = rows.length * params.length ∧ res.skipped = 0 ∧
      sumSizes res.toBuild = rows.length * params.length := by
  obtain ⟨h1, h2, h3⟩ := planRows_emptyDone params rows ⟨[], 0, 0⟩ res h
  simp [sumSizes] at h3
  exact ⟨by simpa using h1, h2, h3⟩

/-- Concrete registry for the C2 witness. -/
def c2_rows : List CsvRow := [⟨"G1", "g1.fna", "g1.faa"⟩]

/-- Concrete spec set for the C2 witness: one DNA spec. -/
def c2_params : List ComputeParameters :=
  [⟨[21], 42, false, false, false, true, 0, false, 1000⟩]

/-- The planner state the C2 witness run produces. -/
def c2_res : PlanState :=
  ⟨[(("G1", "g1.fna"), [⟨[21], 42, false, false, false, true, 0, false, 1000⟩])], 1, 0⟩

/-- Witness for C2 at one row and one spec. -/
theorem plan_empty_done_counts_witness :
    c2_res.total = c2_rows.length * c2_params.length ∧ c2_res.skipped = 0 ∧
      sumSizes c2_res.toBuild = c2_rows.length * c2_params.length :=
  plan_empty_done_counts c2_rows c2_params c2_res rfl

end SketchFrom
